import Mathlib

/-!
Verification of the virtool user-edit / propagation protocol, the cache
migration functions and the uploads soft-delete layer, as a shallow
embedding in Lean 4.
-/

deriving instance DecidableEq for Except

namespace Virtool

/-- Modelled from the spec: the fixed, enumerated permission set
("a fixed, enumerated collection of named boolean capabilities");
names are the ones appearing in the tests (`create_sample`,
`upload_file`) plus the surrounding virtool capability names. -/
inductive Perm
  | cancel_job
  | create_ref
  | create_sample
  | modify_hmm
  | modify_subtraction
  | remove_file
  | remove_job
  | upload_file
deriving DecidableEq, Repr

/-- Modelled from the spec: a total mapping permission-name → bool over
the fixed enumerated permission set. -/
structure Permissions where
  cancel_job : Bool := false
  create_ref : Bool := false
  create_sample : Bool := false
  modify_hmm : Bool := false
  modify_subtraction : Bool := false
  remove_file : Bool := false
  remove_job : Bool := false
  upload_file : Bool := false
deriving DecidableEq, Repr

/-- Look a permission up by name. -/
def Permissions.get (ps : Permissions) : Perm → Bool
  | .cancel_job => ps.cancel_job
  | .create_ref => ps.create_ref
  | .create_sample => ps.create_sample
  | .modify_hmm => ps.modify_hmm
  | .modify_subtraction => ps.modify_subtraction
  | .remove_file => ps.remove_file
  | .remove_job => ps.remove_job
  | .upload_file => ps.upload_file

/-- Build a permission map from a lookup function. -/
def Permissions.ofFun (f : Perm → Bool) : Permissions :=
  { cancel_job := f .cancel_job
    create_ref := f .create_ref
    create_sample := f .create_sample
    modify_hmm := f .modify_hmm
    modify_subtraction := f .modify_subtraction
    remove_file := f .remove_file
    remove_job := f .remove_job
    upload_file := f .upload_file }

/-- Pointwise boolean AND of two permission maps. -/
def Permissions.andP (a b : Permissions) : Permissions :=
  { cancel_job := a.cancel_job && b.cancel_job
    create_ref := a.create_ref && b.create_ref
    create_sample := a.create_sample && b.create_sample
    modify_hmm := a.modify_hmm && b.modify_hmm
    modify_subtraction := a.modify_subtraction && b.modify_subtraction
    remove_file := a.remove_file && b.remove_file
    remove_job := a.remove_job && b.remove_job
    upload_file := a.upload_file && b.upload_file }

namespace Users

/-- Modelled from the spec: a group document — string id plus a
permission map. -/
structure Group where
  _id : String
  permissions : Permissions
deriving DecidableEq, Repr

/-- Modelled from the spec: a user document with the fields the update
protocol touches. -/
structure UserDoc where
  _id : String
  administrator : Bool
  groups : List String
  primary_group : String
  permissions : Permissions
  password : String
  force_reset : Bool
  invalidate_sessions : Bool
  last_password_change : Nat
deriving DecidableEq, Repr

/-- Modelled from the spec: a session or API-key record — identity,
user back-reference, and snapshots of administrator, groups and
permissions. Sessions and keys share this shape; only the propagation
rule differs. -/
structure AuthDoc where
  _id : String
  administrator : Bool
  groups : List String
  permissions : Permissions
  user_id : String
deriving DecidableEq, Repr

/-- Modelled from the spec: the document store with users, groups,
sessions and keys collections. -/
structure DB where
  users : List UserDoc
  groups : List Group
  sessions : List AuthDoc
  keys : List AuthDoc
deriving DecidableEq, Repr

/-- Modelled from the spec: the validation error surface
(machine-readable kind plus the offending identifiers). -/
inductive UserError
  | notFound
  | nonExistentGroups (ids : List String)
  | nonExistentGroup (id : String)
  | notAMember
deriving DecidableEq, Repr

/-- Modelled from the spec and the tests: the human-readable message of
each error, identifiers joined by a comma delimiter. -/
def UserError.message : UserError → String
  | .notFound => "User does not exist"
  | .nonExistentGroups ids => "Non-existent groups: " ++ String.intercalate ", " ids
  | .nonExistentGroup id => "Non-existent group: " ++ id
  | .notAMember => "User is not member of group"

/-- Modelled from the spec: a sparse partial update, one optional field
per mutable user attribute. -/
structure PartialUpdate where
  administrator : Option Bool := none
  force_reset : Option Bool := none
  invalidate_sessions : Option Bool := none
  groups : Option (List String) := none
  permissions : Option Permissions := none
  password : Option String := none
  last_password_change : Option Nat := none
  primary_group : Option String := none
deriving DecidableEq, Repr

/-- Merge two partial updates; a field present in `b` wins. -/
def PartialUpdate.merge (a b : PartialUpdate) : PartialUpdate :=
  { administrator := (b.administrator).orElse (fun _ => a.administrator)
    force_reset := (b.force_reset).orElse (fun _ => a.force_reset)
    invalidate_sessions := (b.invalidate_sessions).orElse (fun _ => a.invalidate_sessions)
    groups := (b.groups).orElse (fun _ => a.groups)
    permissions := (b.permissions).orElse (fun _ => a.permissions)
    password := (b.password).orElse (fun _ => a.password)
    last_password_change := (b.last_password_change).orElse (fun _ => a.last_password_change)
    primary_group := (b.primary_group).orElse (fun _ => a.primary_group) }

/-- Apply a partial update to a user document: fields present in the
update replace the document's fields; absent fields are untouched. -/
def applyUpdate (u : UserDoc) (p : PartialUpdate) : UserDoc :=
  { u with
    administrator := p.administrator.getD u.administrator
    force_reset := p.force_reset.getD u.force_reset
    invalidate_sessions := p.invalidate_sessions.getD u.invalidate_sessions
    groups := p.groups.getD u.groups
    permissions := p.permissions.getD u.permissions
    password := p.password.getD u.password
    last_password_change := p.last_password_change.getD u.last_password_change
    primary_group := p.primary_group.getD u.primary_group }

/-- Find a user document by id. -/
def find_user (db : DB) (user_id : String) : Option UserDoc :=
  db.users.find? (fun u => u._id == user_id)

/-- Find a group document by id. -/
def find_group (coll : List Group) (group_id : String) : Option Group :=
  coll.find? (fun g => g._id == group_id)

/-- Whether a group id exists in the group collection. -/
def group_exists (db : DB) (group_id : String) : Bool :=
  db.groups.any (fun g => g._id == group_id)

/-- Modelled from the spec: ids from the request list that are not
present in the group collection, in request order. -/
def get_non_existent_ids (db : DB) (ids : List String) : List String :=
  ids.filter (fun i => !group_exists db i)

/-- Modelled from the spec: whether the user identified by `user_id` is
currently a member of the group `group_id` (the user document's groups
list contains the id). -/
def is_member_of_group (db : DB) (user_id group_id : String) : Bool :=
  match find_user db user_id with
  | none => false
  | some u => u.groups.contains group_id

/-- Modelled from the spec: the external password hashing collaborator
(`hash(plaintext) -> opaque_hash`). -/
def hash_password (plaintext : String) : String :=
  "hashed_" ++ plaintext

/-- Modelled from the spec: `compose_force_reset_update` of
virtool/users/db.py (not under src). Absent input returns the empty
partial update; otherwise `{force_reset: value, invalidate_sessions: true}`. -/
def compose_force_reset_update (force_reset : Option Bool) : PartialUpdate :=
  match force_reset with
  | none => {}
  | some v => { force_reset := some v, invalidate_sessions := some true }

/-- Modelled from the spec: `compose_password_update` of
virtool/users/db.py (not under src). Absent input returns the empty
partial update; otherwise the hash, the injected call-time timestamp,
and `invalidate_sessions: true`. -/
def compose_password_update (now : Nat) (password : Option String) : PartialUpdate :=
  match password with
  | none => {}
  | some pw =>
      { password := some (hash_password pw)
        last_password_change := some now
        invalidate_sessions := some true }

/-- Effective permissions of a list of group ids: the per-permission
boolean OR across the listed groups' permissions (a listed id missing
from the collection contributes nothing). -/
def merged_permissions (coll : List Group) (ids : List String) : Permissions :=
  Permissions.ofFun
    (fun p => ids.any (fun i => ((find_group coll i).map (fun g => g.permissions.get p)).getD false))

/-- Modelled from the spec: `compose_groups_update` of
virtool/users/db.py (not under src). Fails with `NonExistentGroups`
listing every requested id absent from the group collection; on success
with a non-absent list returns the list and the OR of effective
permissions; absent input returns the empty partial update. -/
def compose_groups_update (db : DB) (groups : Option (List String)) :
    Except UserError PartialUpdate :=
  match groups with
  | none => .ok {}
  | some gs =>
      let missing := get_non_existent_ids db gs
      if missing.isEmpty then
        .ok { groups := some gs, permissions := some (merged_permissions db.groups gs) }
      else
        .error (.nonExistentGroups missing)

/-- Modelled from the spec: `compose_primary_group_update` of
virtool/users/db.py (not under src). Absent input returns the empty
partial update. A non-"none" id must exist in the group collection
(`NonExistentGroup`) and the target user must currently be a member of
it (`NotAMember`); on success returns `{primary_group: value}`. -/
def compose_primary_group_update (db : DB) (user_id : String)
    (primary_group : Option String) : Except UserError PartialUpdate :=
  match primary_group with
  | none => .ok {}
  | some pg =>
      if pg ≠ "none" then
        if !group_exists db pg then
          .error (.nonExistentGroup pg)
        else if !is_member_of_group db user_id pg then
          .error .notAMember
        else
          .ok { primary_group := some pg }
      else
        .ok { primary_group := some pg }

/-- Propagation rule for one session record: administrator and groups
are overwritten unconditionally and the permissions field is replaced
outright with the target map. -/
def update_session_doc (administrator : Bool) (groups : List String)
    (target : Permissions) (s : AuthDoc) : AuthDoc :=
  { s with administrator := administrator, groups := groups, permissions := target }

/-- Propagation rule for one key record: administrator and groups are
overwritten unconditionally; a key permission survives only if it was
already true and the target also has it true (keys only ever lose
capability through this path). -/
def update_key_doc (administrator : Bool) (groups : List String)
    (target : Permissions) (k : AuthDoc) : AuthDoc :=
  { k with
    administrator := administrator
    groups := groups
    permissions := k.permissions.andP target }

/-- Modelled from the spec: `update_sessions_and_keys` of
virtool/users/db.py (not under src). Applies the session and key
propagation rules to every record referencing `user_id`. -/
def update_sessions_and_keys (db : DB) (user_id : String) (administrator : Bool)
    (groups : List String) (permissions : Permissions) : DB :=
  { db with
    sessions := db.sessions.map
      (fun s => if s.user_id == user_id then update_session_doc administrator groups permissions s else s)
    keys := db.keys.map
      (fun k => if k.user_id == user_id then update_key_doc administrator groups permissions k else k) }

/-- Modelled from the spec: `edit` of virtool/users/db.py (not under
src). Fails with `NotFound` if the user does not exist; runs the
sub-composers in order force_reset, groups, password, primary_group,
aborting with no write on the first failure; merges the partial updates
with the administrator value; applies the merged update to the user
document; then propagates the final administrator, groups and
permissions to sessions and keys. Returns the new store paired with the
result (the final document on success). -/
def edit (db : DB) (now : Nat) (user_id : String) (administrator : Option Bool)
    (force_reset : Option Bool) (groups : Option (List String))
    (password : Option String) (primary_group : Option String) :
    DB × Except UserError UserDoc :=
  match find_user db user_id with
  | none => (db, .error .notFound)
  | some u0 =>
      let forceU := compose_force_reset_update force_reset
      match compose_groups_update db groups with
      | .error e => (db, .error e)
      | .ok groupsU =>
          let passU := compose_password_update now password
          match compose_primary_group_update db user_id primary_group with
          | .error e => (db, .error e)
          | .ok primaryU =>
              let adminU : PartialUpdate := { administrator := administrator }
              let merged :=
                (((adminU.merge forceU).merge groupsU).merge passU).merge primaryU
              let final := applyUpdate u0 merged
              let db1 : DB :=
                { db with
                  users := db.users.map
                    (fun v => if v._id == user_id then applyUpdate v merged else v) }
              let db2 :=
                update_sessions_and_keys db1 user_id final.administrator
                  final.groups final.permissions
              (db2, .ok final)

/-- The data-model invariant: primary_group, if set and not the "none"
sentinel, is an element of groups. -/
def primary_group_invariant (u : UserDoc) : Prop :=
  u.primary_group ≠ "none" → u.primary_group ≠ "" → u.primary_group ∈ u.groups

instance (u : UserDoc) : Decidable (primary_group_invariant u) := by
  unfold primary_group_invariant
  infer_instance

end Users

namespace Caches

/-- A cache document, restricted to the fields the migrations touch:
the id, the optional `missing` flag, and the optional `hash` and `key`
fields (`none` models an absent field). -/
structure CacheDoc where
  _id : String
  missing : Option Bool
  hash : Option String
  key : Option String
deriving DecidableEq, Repr

/-- `$set {missing: v}` on one cache document. -/
def set_missing (v : Bool) (c : CacheDoc) : CacheDoc :=
  { c with missing := some v }

/-- `add_missing_field` of virtool/caches/migrate.py: set `missing` to
`False` on every cache document, then to `True` on every document whose
id is not among the cache ids found on disk. -/
def add_missing_field (found_cache_ids : List String) (caches : List CacheDoc) :
    List CacheDoc :=
  let step1 := caches.map (set_missing false)
  step1.map (fun c => if found_cache_ids.contains c._id then c else set_missing true c)

/-- Mongo `$rename {hash: key}` on one document: when `hash` is absent
the document is untouched; otherwise `hash` is removed and `key` takes
its value. -/
def rename_hash_doc (c : CacheDoc) : CacheDoc :=
  match c.hash with
  | none => c
  | some v => { c with hash := none, key := some v }

/-- `rename_hash_field` of virtool/caches/migrate.py: rename the `hash`
field to `key` on every cache document. -/
def rename_hash_field (caches : List CacheDoc) : List CacheDoc :=
  caches.map rename_hash_doc

end Caches

namespace Uploads

/-- A row of the `uploads` SQL table, restricted to the columns
find/get/delete_row touch. -/
structure UploadRow where
  id : Nat
  name : String
  ready : Bool
  removed : Bool
  reserved : Bool
  upload_type : String
  user : Option String
  removed_at : Option Nat
  reads : List Nat
deriving DecidableEq, Repr

/-- Python truthiness of the optional string filter arguments (`None`
and the empty string are falsy). -/
def truthy : Option String → Bool
  | none => false
  | some s => s ≠ ""

/-- `find` of virtool/uploads/db.py: rows with `removed == False`,
optionally narrowed by uploading user and upload type (each filter is
applied only when the argument is truthy). -/
def find (rows : List UploadRow) (user : Option String)
    (upload_type : Option String) : List UploadRow :=
  rows.filter (fun r =>
    (r.removed == false)
    && (if truthy user then r.user == user else true)
    && (if truthy upload_type then some r.upload_type == upload_type else true))

/-- `get` of virtool/uploads/db.py: the first row with the given id and
`removed == False`, else `none`. -/
def get (rows : List UploadRow) (upload_id : Nat) : Option UploadRow :=
  rows.find? (fun r => r.id == upload_id && r.removed == false)

/-- `delete_row` of virtool/uploads/db.py: look the row up by id alone;
if it is absent or already removed return `none` and leave the table
unchanged; otherwise clear its reads, set `removed` and `removed_at`,
and return the updated row together with the updated table. -/
def delete_row (now : Nat) (rows : List UploadRow) (upload_id : Nat) :
    Option UploadRow × List UploadRow :=
  match rows.find? (fun r => r.id == upload_id) with
  | none => (none, rows)
  | some r =>
      if r.removed then
        (none, rows)
      else
        let r' : UploadRow := { r with reads := [], removed := true, removed_at := some now }
        (some r', rows.map (fun x => if x.id == upload_id then { x with reads := [], removed := true, removed_at := some now } else x))

end Uploads

namespace Fixtures

open Users Uploads

/-- A group named kings granting create_sample. -/
def kingsW : Group := { _id := "kings", permissions := { create_sample := true } }

/-- A group named peasants granting nothing. -/
def peasantsW : Group := { _id := "peasants", permissions := {} }

/-- A user bob, member of kings with kings as primary group. -/
def bobW : UserDoc :=
  { _id := "bob", administrator := false, groups := ["kings"], primary_group := "kings",
    permissions := { create_sample := true }, password := "pw", force_reset := false,
    invalidate_sessions := false, last_password_change := 0 }

/-- An API key of bob holding create_sample and upload_file. -/
def keyW : AuthDoc :=
  { _id := "k1", administrator := false, groups := ["kings"],
    permissions := { create_sample := true, upload_file := true }, user_id := "bob" }

/-- A session of bob. -/
def sessionW : AuthDoc :=
  { _id := "s1", administrator := false, groups := ["kings"],
    permissions := { create_sample := true }, user_id := "bob" }

/-- A store with bob, the two groups, one session and one key. -/
def dbW : DB :=
  { users := [bobW], groups := [kingsW, peasantsW], sessions := [sessionW], keys := [keyW] }

/-- Target permissions granting only upload_file. -/
def targetW : Permissions := { upload_file := true }

/-- The store without sessions and keys. -/
def dbW0 : DB :=
  { users := [bobW], groups := [kingsW, peasantsW], sessions := [], keys := [] }

/-- Bob after an edit moving him to peasants only: his stale primary
group kings is no longer among his groups. -/
def bobXW : UserDoc := { bobW with groups := ["peasants"], permissions := {} }

/-- Bob after an edit setting the primary group to the none sentinel. -/
def bobNoneW : UserDoc := { bobW with primary_group := "none" }

/-- The sessionless store after that edit. -/
def dbW0x : DB := { dbW0 with users := [bobNoneW] }

/-- An empty store. -/
def dbE : DB := { users := [], groups := [], sessions := [], keys := [] }

/-- A live upload row. -/
def rowW : UploadRow :=
  { id := 1, name := "f", ready := true, removed := false, reserved := false,
    upload_type := "reads", user := some "bob", removed_at := none, reads := [7] }

/-- The same row after delete_row at time 5. -/
def rowXW : UploadRow := { rowW with reads := [], removed := true, removed_at := some 5 }

end Fixtures

section Theorems

open Users Caches Uploads Fixtures

theorem Permissions.get_ofFun (f : Perm → Bool) (p : Perm) :
    (Permissions.ofFun f).get p = f p := by
  cases p <;> rfl

theorem Permissions.get_andP (a b : Permissions) (p : Perm) :
    (a.andP b).get p = (a.get p && b.get p) := by
  cases p <;> rfl

theorem Permissions.andP_right_idem (a b : Permissions) :
    (a.andP b).andP b = a.andP b := by
  cases a; cases b
  simp [Permissions.andP, Bool.and_assoc]

/-- C1: for every call to `edit` with a user_id for which no user
document exists in the store, `edit` fails with NotFound ("User does
not exist") and performs zero writes to any collection: the users,
sessions and keys collections (indeed the whole store) are unchanged
after the failed call. -/
theorem c1_edit_missing_user_fails_without_writes
    (db : DB) (now : Nat) (user_id : String)
    (administrator force_reset : Option Bool) (groups : Option (List String))
    (password primary_group : Option String)
    (h : find_user db user_id = none) :
    edit db now user_id administrator force_reset groups password primary_group
        = (db, Except.error UserError.notFound) ∧
    (edit db now user_id administrator force_reset groups password primary_group).1.users
        = db.users ∧
    (edit db now user_id administrator force_reset groups password primary_group).1.sessions
        = db.sessions ∧
    (edit db now user_id administrator force_reset groups password primary_group).1.keys
        = db.keys ∧
    (UserError.notFound).message = "User does not exist" := by
  have he : edit db now user_id administrator force_reset groups password primary_group
      = (db, Except.error UserError.notFound) := by
    unfold edit
    rw [h]
  exact ⟨he, by rw [he], by rw [he], by rw [he], rfl⟩

theorem c1_witness :
    find_user dbE "bob" = none ∧
    edit dbE 0 "bob" none none none none none = (dbE, Except.error UserError.notFound) :=
  ⟨by decide,
    (c1_edit_missing_user_fails_without_writes dbE 0 "bob" none none none none none
      (by decide)).1⟩

/-- C4: `update_sessions_and_keys` is idempotent — for every starting
state of the session and key collections and every argument tuple,
invoking it twice in succession with the same arguments leaves every
session and key record identical to invoking it once. -/
theorem c4_update_sessions_and_keys_idempotent
    (db : DB) (user_id : String) (administrator : Bool)
    (groups : List String) (permissions : Permissions) :
    update_sessions_and_keys
        (update_sessions_and_keys db user_id administrator groups permissions)
        user_id administrator groups permissions
      = update_sessions_and_keys db user_id administrator groups permissions := by
  unfold update_sessions_and_keys
  simp only [List.map_map, DB.mk.injEq, true_and]
  constructor
  · apply List.map_congr_left
    intro s _
    by_cases hc : s.user_id == user_id
    · simp [Function.comp, hc, update_session_doc]
    · simp [Function.comp, hc]
  · apply List.map_congr_left
    intro k _
    by_cases hc : k.user_id == user_id
    · simp [Function.comp, hc, update_key_doc, Permissions.andP_right_idem]
    · simp [Function.comp, hc]

/-- C2: for every key record belonging to the target user and every
permission name, `update_sessions_and_keys` never changes that key
permission from false to true, even when the supplied target
permissions map has it true; it sets the key permission to false
exactly when the target map has it false, and a key permission already
false stays false. -/
theorem c2_key_permissions_ratchet_down
    (db : DB) (user_id : String) (administrator : Bool)
    (groups : List String) (target : Permissions) :
    ((update_sessions_and_keys db user_id administrator groups target).keys.length
        = db.keys.length) ∧
    ∀ (i : Nat) (h : i < db.keys.length)
      (h2 : i < (update_sessions_and_keys db user_id administrator groups target).keys.length),
      (db.keys.get ⟨i, h⟩).user_id = user_id →
      ∀ p : Perm,
        (((update_sessions_and_keys db user_id administrator groups target).keys.get
              ⟨i, h2⟩).permissions.get p = false
          ↔ (target.get p = false ∨ (db.keys.get ⟨i, h⟩).permissions.get p = false)) ∧
        ¬((db.keys.get ⟨i, h⟩).permissions.get p = false ∧
          ((update_sessions_and_keys db user_id administrator groups target).keys.get
              ⟨i, h2⟩).permissions.get p = true) := by
  constructor
  · simp [update_sessions_and_keys]
  · intro i h h2 huid p
    simp only [List.get_eq_getElem] at huid
    have hx : (update_sessions_and_keys db user_id administrator groups target).keys.get
        ⟨i, h2⟩ = update_key_doc administrator groups target (db.keys.get ⟨i, h⟩) := by
      simp [update_sessions_and_keys, update_key_doc, huid]
    rw [hx]
    simp only [update_key_doc, Permissions.get_andP]
    cases hkp : (db.keys.get ⟨i, h⟩).permissions.get p <;>
      cases htp : target.get p <;> simp

theorem c2_witness :
    ((update_sessions_and_keys dbW "bob" true ["kings", "peasants"] targetW).keys.get
        ⟨0, by decide⟩).permissions.get Perm.create_sample = false :=
  ((c2_key_permissions_ratchet_down dbW "bob" true ["kings", "peasants"] targetW).2
      0 (by decide) (by decide) (by decide) Perm.create_sample).1.mpr (Or.inl (by decide))

/-- C3: for every session record belonging to the target user,
`update_sessions_and_keys` replaces the session's permissions field
outright so that it equals exactly the supplied target permissions map,
and on every session and every key record of that user it overwrites
the administrator and groups fields unconditionally with the supplied
values. -/
theorem c3_session_replacement_and_snapshot_fields
    (db : DB) (user_id : String) (administrator : Bool)
    (groups : List String) (target : Permissions) :
    ((update_sessions_and_keys db user_id administrator groups target).sessions.length
        = db.sessions.length) ∧
    ((update_sessions_and_keys db user_id administrator groups target).keys.length
        = db.keys.length) ∧
    (∀ (i : Nat) (h : i < db.sessions.length)
      (h2 : i < (update_sessions_and_keys db user_id administrator groups target).sessions.length),
      (db.sessions.get ⟨i, h⟩).user_id = user_id →
        ((update_sessions_and_keys db user_id administrator groups target).sessions.get
            ⟨i, h2⟩).permissions = target ∧
        ((update_sessions_and_keys db user_id administrator groups target).sessions.get
            ⟨i, h2⟩).administrator = administrator ∧
        ((update_sessions_and_keys db user_id administrator groups target).sessions.get
            ⟨i, h2⟩).groups = groups) ∧
    (∀ (i : Nat) (h : i < db.keys.length)
      (h2 : i < (update_sessions_and_keys db user_id administrator groups target).keys.length),
      (db.keys.get ⟨i, h⟩).user_id = user_id →
        ((update_sessions_and_keys db user_id administrator groups target).keys.get
            ⟨i, h2⟩).administrator = administrator ∧
        ((update_sessions_and_keys db user_id administrator groups target).keys.get
            ⟨i, h2⟩).groups = groups) := by
  refine ⟨by simp [update_sessions_and_keys], by simp [update_sessions_and_keys], ?_, ?_⟩
  · intro i h h2 huid
    simp only [List.get_eq_getElem] at huid
    have hx : (update_sessions_and_keys db user_id administrator groups target).sessions.get
        ⟨i, h2⟩ = update_session_doc administrator groups target (db.sessions.get ⟨i, h⟩) := by
      simp [update_sessions_and_keys, update_session_doc, huid]
    rw [hx]
    exact ⟨rfl, rfl, rfl⟩
  · intro i h h2 huid
    simp only [List.get_eq_getElem] at huid
    have hx : (update_sessions_and_keys db user_id administrator groups target).keys.get
        ⟨i, h2⟩ = update_key_doc administrator groups target (db.keys.get ⟨i, h⟩) := by
      simp [update_sessions_and_keys, update_key_doc, huid]
    rw [hx]
    exact ⟨rfl, rfl⟩

theorem c3_witness :
    ((update_sessions_and_keys dbW "bob" true ["kings", "peasants"] targetW).sessions.get
        ⟨0, by decide⟩).permissions = targetW :=
  ((c3_session_replacement_and_snapshot_fields dbW "bob" true ["kings", "peasants"]
      targetW).2.2.1 0 (by decide) (by decide) (by decide)).1

/-- C5: for every non-absent groups list whose ids all exist in the
group collection (including the empty list), `compose_groups_update`
returns exactly the partial update holding the given list and the
per-permission boolean OR of the listed groups' permissions; the empty
list yields every enumerated permission false; absent input returns the
empty partial update. -/
theorem c5_compose_groups_success (db : DB) (gs : List String)
    (h : ∀ g ∈ gs, group_exists db g = true) :
    compose_groups_update db (some gs)
        = Except.ok { groups := some gs,
                      permissions := some (merged_permissions db.groups gs) } ∧
    (∀ p : Perm, (merged_permissions db.groups gs).get p = true ↔
        ∃ i ∈ gs, ∃ g, find_group db.groups i = some g ∧ g.permissions.get p = true) ∧
    (gs = [] → ∀ p : Perm, (merged_permissions db.groups gs).get p = false) ∧
    compose_groups_update db none = Except.ok {} := by
  refine ⟨?_, ?_, ?_, rfl⟩
  · have hm : get_non_existent_ids db gs = [] := by
      simp only [get_non_existent_ids, List.filter_eq_nil_iff]
      intro a ha
      simp [h a ha]
    simp [compose_groups_update, hm]
  · intro p
    simp only [merged_permissions, Permissions.get_ofFun, List.any_eq_true]
    constructor
    · rintro ⟨i, hi, hp⟩
      refine ⟨i, hi, ?_⟩
      cases hf : find_group db.groups i with
      | none => rw [hf] at hp; simp at hp
      | some g => rw [hf] at hp; simp at hp; exact ⟨g, rfl, hp⟩
    · rintro ⟨i, hi, g, hf, hp⟩
      exact ⟨i, hi, by simp [hf, hp]⟩
  · intro hgs p
    subst hgs
    simp [merged_permissions, Permissions.get_ofFun]

theorem c5_witness :
    compose_groups_update dbW (some ["kings"])
      = Except.ok { groups := some ["kings"],
                    permissions := some (merged_permissions dbW.groups ["kings"]) } :=
  (c5_compose_groups_success dbW ["kings"] (by decide)).1

/-- C6: whenever `compose_groups_update` is called with a list
containing at least one group id not present in the group collection,
it fails with the NonExistentGroups validation error, and the error
message contains exactly the unknown ids (and no existing ids),
comma-joined, in their original request order (the unknown-id list is a
sublist of the request list). -/
theorem c6_compose_groups_unknown_ids (db : DB) (gs : List String)
    (h : ∃ g ∈ gs, group_exists db g = false) :
    compose_groups_update db (some gs)
        = Except.error (UserError.nonExistentGroups (get_non_existent_ids db gs)) ∧
    (∀ x, x ∈ get_non_existent_ids db gs ↔ (x ∈ gs ∧ group_exists db x = false)) ∧
    (get_non_existent_ids db gs).Sublist gs ∧
    (UserError.nonExistentGroups (get_non_existent_ids db gs)).message
        = "Non-existent groups: "
            ++ String.intercalate ", " (get_non_existent_ids db gs) := by
  refine ⟨?_, ?_, List.filter_sublist gs, rfl⟩
  · obtain ⟨g, hg, hgf⟩ := h
    have hne : get_non_existent_ids db gs ≠ [] := by
      intro hnil
      have := (List.filter_eq_nil_iff.mp hnil) g hg
      simp [hgf] at this
    simp only [compose_groups_update]
    rw [if_neg (by simpa [List.isEmpty_iff] using hne)]
  · intro x
    simp [get_non_existent_ids, List.mem_filter]

theorem c6_witness :
    compose_groups_update dbW (some ["kings", "lords", "peasants"])
        = Except.error
            (UserError.nonExistentGroups
              (get_non_existent_ids dbW ["kings", "lords", "peasants"])) :=
  (c6_compose_groups_unknown_ids dbW ["kings", "lords", "peasants"]
      ⟨"lords", by decide, by decide⟩).1

/-- C7: `compose_primary_group_update` fails with NonExistentGroup when
the requested id (other than the "none" sentinel) is not in the group
collection, fails with NotAMember when the group exists but the target
user is not currently a member of it, returns exactly the partial
update holding the primary group on success (including for the "none"
sentinel), and returns the empty partial update for absent input; and
whenever any sub-composer fails, `edit` returns with the store
unchanged, so both failure kinds occur before any write. -/
theorem c7_compose_primary_group_cases (db : DB) (user_id pg : String) :
    (compose_primary_group_update db user_id none = Except.ok {}) ∧
    (pg ≠ "none" → group_exists db pg = false →
      compose_primary_group_update db user_id (some pg)
        = Except.error (UserError.nonExistentGroup pg)) ∧
    (pg ≠ "none" → group_exists db pg = true → is_member_of_group db user_id pg = false →
      compose_primary_group_update db user_id (some pg)
        = Except.error UserError.notAMember) ∧
    ((pg = "none" ∨ (group_exists db pg = true ∧ is_member_of_group db user_id pg = true)) →
      compose_primary_group_update db user_id (some pg)
        = Except.ok { primary_group := some pg }) ∧
    (∀ (now : Nat) (administrator force_reset : Option Bool)
        (groups : Option (List String)) (password primary_group : Option String)
        (e : UserError),
      (edit db now user_id administrator force_reset groups password primary_group).2
          = Except.error e →
      (edit db now user_id administrator force_reset groups password primary_group).1
          = db) := by
  refine ⟨rfl, ?_, ?_, ?_, ?_⟩
  · intro hne hex
    simp [compose_primary_group_update, hne, hex]
  · intro hne hex hm
    simp [compose_primary_group_update, hne, hex, hm]
  · rintro (hnone | ⟨hex, hm⟩)
    · simp [compose_primary_group_update, hnone]
    · by_cases hne : pg = "none"
      · simp [compose_primary_group_update, hne]
      · simp [compose_primary_group_update, hne, hex, hm]
  · intro now administrator force_reset groups password primary_group e
    unfold edit
    cases hfu : find_user db user_id with
    | none => intro _; rfl
    | some u0 =>
        cases hg : compose_groups_update db groups with
        | error eg => intro _; rfl
        | ok gu =>
            cases hp : compose_primary_group_update db user_id primary_group with
            | error ep => intro _; rfl
            | ok pu => intro hx; simp at hx

theorem c7_witness :
    compose_primary_group_update dbW "bob" (some "lords")
        = Except.error (UserError.nonExistentGroup "lords") :=
  (c7_compose_primary_group_cases dbW "bob" "lords").2.1 (by decide) (by decide)

theorem compose_force_reset_update_groups (fr : Option Bool) :
    (compose_force_reset_update fr).groups = none := by cases fr <;> rfl

theorem compose_force_reset_update_primary (fr : Option Bool) :
    (compose_force_reset_update fr).primary_group = none := by cases fr <;> rfl

theorem compose_password_update_groups (now : Nat) (pw : Option String) :
    (compose_password_update now pw).groups = none := by cases pw <;> rfl

theorem compose_password_update_primary (now : Nat) (pw : Option String) :
    (compose_password_update now pw).primary_group = none := by cases pw <;> rfl

theorem compose_primary_group_update_ok_inv (db : DB) (user_id : String)
    (pgArg : Option String) (pu : PartialUpdate) (u0 : UserDoc)
    (h0 : find_user db user_id = some u0)
    (h : compose_primary_group_update db user_id pgArg = Except.ok pu) :
    pu.groups = none ∧
    (pu.primary_group = none ∨ pu.primary_group = some "none" ∨
      ∃ pg, pu.primary_group = some pg ∧ pg ∈ u0.groups) := by
  cases pgArg with
  | none =>
      simp only [compose_primary_group_update, Except.ok.injEq] at h
      subst h
      simp
  | some pg =>
      by_cases hne : pg = "none"
      · subst hne
        simp only [compose_primary_group_update, ne_eq, not_true_eq_false, if_false,
          Except.ok.injEq] at h
        subst h
        simp
      · simp only [compose_primary_group_update, if_pos hne] at h
        by_cases hex : group_exists db pg
        · by_cases hm : is_member_of_group db user_id pg
          · simp only [hex, hm, Bool.not_true, Bool.false_eq_true, if_false,
              Except.ok.injEq] at h
            subst h
            refine ⟨rfl, Or.inr (Or.inr ⟨pg, rfl, ?_⟩)⟩
            simp only [is_member_of_group, h0] at hm
            simpa using hm
          · simp only [hex, Bool.not_eq_true] at hm
            simp [hm, hex] at h
        · simp only [Bool.not_eq_true] at hex
          simp [hex] at h

/-- C8 counterexample: user bob satisfies the primary-group invariant
(his primary group kings is among his groups), yet the edit replacing
his groups with peasants succeeds and returns a document whose
primary_group kings is no longer an element of groups — the claim that
every edit preserves the invariant is false at this concrete input. -/
theorem c8_counterexample :
    primary_group_invariant bobW ∧
    (edit dbW0 0 "bob" none none (some ["peasants"]) none none).2 = Except.ok bobXW ∧
    ¬ primary_group_invariant bobXW :=
  ⟨by decide, by decide, by decide⟩

/-- C8 amended: the primary-group invariant (primary_group, if set and
not the "none" sentinel, is an element of groups) is preserved by every
successful edit whose groups argument is absent: membership of a newly
requested primary group is validated against the user's current groups,
so the final document satisfies the invariant whenever the starting
document does. (An edit that also replaces groups can break the
invariant, as the counterexample shows, because the membership check
runs against the pre-edit groups only.) -/
theorem c8_edit_absent_groups_preserves_invariant
    (db : DB) (now : Nat) (user_id : String) (administrator force_reset : Option Bool)
    (password primary_group : Option String) (u0 final : UserDoc) (db2 : DB)
    (h0 : find_user db user_id = some u0)
    (hinv : primary_group_invariant u0)
    (h : edit db now user_id administrator force_reset none password primary_group
          = (db2, Except.ok final)) :
    primary_group_invariant final := by
  cases hp : compose_primary_group_update db user_id primary_group with
  | error ep =>
      simp only [edit, h0, compose_groups_update, hp, Prod.mk.injEq] at h
      exact Except.noConfusion h.2
  | ok pu =>
      simp only [edit, h0, compose_groups_update, hp, Prod.mk.injEq, Except.ok.injEq] at h
      obtain ⟨-, hfinal⟩ := h
      obtain ⟨hgnone, hpg⟩ :=
        compose_primary_group_update_ok_inv db user_id primary_group pu u0 h0 hp
      subst hfinal
      unfold primary_group_invariant applyUpdate PartialUpdate.merge
      simp only [hgnone, compose_force_reset_update_groups, compose_password_update_groups,
        compose_force_reset_update_primary, compose_password_update_primary]
      rcases hpg with hnone | hsent | hmem
      · simpa [hnone] using hinv
      · simp [hsent]
      · obtain ⟨pg, hpge, hmem⟩ := hmem
        simp only [hpge, Option.some_orElse, Option.getD_some, Option.none_orElse,
          Option.getD_none]
        intro _ _
        exact hmem

theorem c8_witness :
    primary_group_invariant bobNoneW :=
  c8_edit_absent_groups_preserves_invariant dbW0 0 "bob" none none none (some "none")
    bobW bobNoneW dbW0x (by decide) (by decide) (by decide)

/-- C9: the two startup cache migration functions composed by
migrate_caches — `add_missing_field` and `rename_hash_field` — are
idempotent: for every cache-document collection and every on-disk
caches directory listing, running each function twice yields the same
final documents as running it once. -/
theorem c9_cache_migrations_idempotent (found_cache_ids : List String)
    (caches : List CacheDoc) :
    add_missing_field found_cache_ids (add_missing_field found_cache_ids caches)
        = add_missing_field found_cache_ids caches ∧
    rename_hash_field (rename_hash_field caches) = rename_hash_field caches := by
  constructor
  · unfold add_missing_field
    simp only [List.map_map]
    apply List.map_congr_left
    intro c _
    by_cases hc : c._id ∈ found_cache_ids
    · simp [Function.comp, set_missing, hc]
    · simp [Function.comp, set_missing, hc]
  · unfold rename_hash_field
    rw [List.map_map]
    apply List.map_congr_left
    intro c _
    cases hh : c.hash with
    | none => simp [Function.comp, rename_hash_doc, hh]
    | some v => simp [Function.comp, rename_hash_doc, hh]

/-- C10: soft-deleted upload rows are invisible to readers — every row
returned by `find` or `get` has removed = false; after `delete_row`
succeeds on an upload id, `get` on that id returns none and `find`
never includes a row with that id; and `delete_row` on an id that is
absent or already removed returns none and mutates nothing. -/
theorem c10_soft_deleted_rows_invisible :
    (∀ (rows : List UploadRow) (user upload_type : Option String) (r : UploadRow),
        r ∈ find rows user upload_type → r.removed = false) ∧
    (∀ (rows : List UploadRow) (upload_id : Nat) (r : UploadRow),
        get rows upload_id = some r → r.removed = false) ∧
    (∀ (now : Nat) (rows : List UploadRow) (upload_id : Nat) (r : UploadRow)
        (rows2 : List UploadRow),
        delete_row now rows upload_id = (some r, rows2) →
        get rows2 upload_id = none ∧
        ∀ (user upload_type : Option String) (x : UploadRow),
          x ∈ find rows2 user upload_type → x.id ≠ upload_id) ∧
    (∀ (now : Nat) (rows : List UploadRow) (upload_id : Nat),
        rows.find? (fun r => r.id == upload_id) = none →
        delete_row now rows upload_id = (none, rows)) ∧
    (∀ (now : Nat) (rows : List UploadRow) (upload_id : Nat) (r : UploadRow),
        rows.find? (fun r => r.id == upload_id) = some r → r.removed = true →
        delete_row now rows upload_id = (none, rows)) := by
  refine ⟨?_, ?_, ?_, ?_, ?_⟩
  · intro rows user upload_type r hr
    have := (List.mem_filter.mp hr).2
    simp only [Bool.and_eq_true, beq_iff_eq] at this
    exact this.1.1
  · intro rows upload_id r hr
    have := List.find?_some hr
    simp only [Bool.and_eq_true, beq_iff_eq] at this
    exact this.2
  · intro now rows upload_id r rows2 hdel
    cases hf : rows.find? (fun r => r.id == upload_id) with
    | none => simp [delete_row, hf] at hdel
    | some r0 =>
        by_cases hrem : r0.removed
        · simp [delete_row, hf, hrem] at hdel
        · simp only [delete_row, hf, hrem, Bool.false_eq_true, if_false, Prod.mk.injEq,
            Option.some.injEq] at hdel
          obtain ⟨-, hrows2⟩ := hdel
          subst hrows2
          constructor
          · unfold Uploads.get
            rw [List.find?_eq_none]
            intro x hx
            obtain ⟨y, _, hy⟩ := List.mem_map.mp hx
            by_cases hid : y.id == upload_id
            · rw [if_pos hid] at hy
              subst hy
              simp
            · rw [if_neg hid] at hy
              subst hy
              simp only [Bool.and_eq_true]
              intro hcon
              exact absurd hcon.1 (by simpa using hid)
          · intro user upload_type x hx
            have hmem := (List.mem_filter.mp hx).1
            have hpred := (List.mem_filter.mp hx).2
            obtain ⟨y, _, hy⟩ := List.mem_map.mp hmem
            by_cases hid : y.id == upload_id
            · rw [if_pos hid] at hy
              subst hy
              simp at hpred
            · rw [if_neg hid] at hy
              subst hy
              simpa using hid
  · intro now rows upload_id hf
    simp [delete_row, hf]
  · intro now rows upload_id r hf hrem
    simp [delete_row, hf, hrem]

theorem c10_witness :
    get [rowXW] 1 = none ∧ delete_row 9 [rowXW] 1 = (none, [rowXW]) :=
  ⟨(c10_soft_deleted_rows_invisible.2.2.1 5 [rowW] 1 rowXW [rowXW] (by decide)).1,
    c10_soft_deleted_rows_invisible.2.2.2.2 9 [rowXW] 1 rowXW (by decide) (by decide)⟩

end Theorems

end Virtool
